import Mathlib

/-!
Shallow embedding of the `sqlalchemy-aws` DynamoDB dialect
(`src/sqla/dynamodb/utils.py`, `src/sqla/dynamodb/dbapi.py`,
`src/sqla/dynamodb/dialect.py`) and verification of the spec claims.

Python dictionaries are modelled as insertion-ordered association lists
(CPython dicts preserve insertion order); Python integers are `Int`;
Python strings are `String`.
-/

namespace SqlaDynamo

/-! ### Model of Python's builtin decimal conversions `str(int)` / `int(str)` -/

/-- The decimal digit characters, as produced by Python's `str` on integers. -/
def digitToChar : Nat → Char
  | 0 => '0' | 1 => '1' | 2 => '2' | 3 => '3' | 4 => '4'
  | 5 => '5' | 6 => '6' | 7 => '7' | 8 => '8' | _ => '9'

/-- Digit value of a character, `none` for non-digits (Python raises there). -/
def charToDigit (c : Char) : Option Nat :=
  if c = '0' then some 0
  else if c = '1' then some 1
  else if c = '2' then some 2
  else if c = '3' then some 3
  else if c = '4' then some 4
  else if c = '5' then some 5
  else if c = '6' then some 6
  else if c = '7' then some 7
  else if c = '8' then some 8
  else if c = '9' then some 9
  else none

/-- Fuel-driven digit extraction (structural, so that it reduces inside
`decide`/`rfl`); the fuel is always at least the argument. -/
def natDigitsLEAux : Nat → Nat → List Nat
  | _, 0 => []
  | 0, _+1 => []
  | f+1, n+1 => ((n+1) % 10) :: natDigitsLEAux f ((n+1) / 10)

/-- Base-10 digits of a natural number, least significant first (empty for 0). -/
def natDigitsLE (n : Nat) : List Nat := natDigitsLEAux n n

theorem natDigitsLEAux_fuel (f : Nat) :
    ∀ g n : Nat, n ≤ f → n ≤ g → natDigitsLEAux f n = natDigitsLEAux g n := by
  induction f with
  | zero =>
    intro g n hf _
    interval_cases n
    cases g <;> rfl
  | succ f ihf =>
    intro g n hf hg
    match n, g with
    | 0, g => cases g <;> rfl
    | m+1, 0 => omega
    | m+1, g+1 =>
      rw [natDigitsLEAux, natDigitsLEAux]
      have hdiv : (m+1) / 10 ≤ m := by
        have := Nat.div_lt_self (Nat.succ_pos m) (by decide : 1 < 10)
        omega
      rw [ihf g ((m+1) / 10) (by omega) (by omega)]

theorem natDigitsLE_zero : natDigitsLE 0 = [] := rfl

theorem natDigitsLE_succ (m : Nat) :
    natDigitsLE (m+1) = ((m+1) % 10) :: natDigitsLE ((m+1) / 10) := by
  show natDigitsLEAux (m+1) (m+1) = _
  rw [natDigitsLEAux]
  have hdiv : (m+1) / 10 ≤ m := by
    have := Nat.div_lt_self (Nat.succ_pos m) (by decide : 1 < 10)
    omega
  rw [natDigitsLEAux_fuel m ((m+1) / 10) ((m+1) / 10) hdiv (le_refl _)]
  rfl

/-- Value of a little-endian digit list. -/
def digitsVal : List Nat → Nat
  | [] => 0
  | d :: ds => d + 10 * digitsVal ds

/-- Model of Python `str(n)` for a natural number `n`. -/
def natToString (n : Nat) : String :=
  if n = 0 then "0" else ⟨((natDigitsLE n).reverse.map digitToChar)⟩

/-- Model of Python `str(n)` for an integer `n`. -/
def intToStr (n : Int) : String :=
  if n < 0 then "-" ++ natToString n.natAbs else natToString n.toNat

/-- Accumulating decimal parser over a character list. -/
def parseDigitsAux (a : Nat) : List Char → Option Nat
  | [] => some a
  | c :: cs => (charToDigit c).bind fun d => parseDigitsAux (a * 10 + d) cs

/-- Parse a non-empty all-digit character list as a natural number. -/
def parseNat : List Char → Option Nat
  | [] => none
  | c :: cs => parseDigitsAux 0 (c :: cs)

/-- Sign-and-digits integer parser over a character list. -/
def pyIntChars : List Char → Option Int
  | [] => none
  | c :: cs =>
    if c = '-' then (parseNat cs).map (fun m => -(m : Int))
    else (parseNat (c :: cs)).map (fun m => (m : Int))

/-- Model of Python `int(s)` on a string, restricted to the grammar produced
by `str` on integers: an optional leading minus sign followed by decimal
digits.  `none` models the `ValueError` Python raises on other inputs. -/
def pyInt (s : String) : Option Int := pyIntChars s.toList

theorem charToDigit_digitToChar {d : Nat} (h : d < 10) :
    charToDigit (digitToChar d) = some d := by
  interval_cases d <;> rfl

theorem digitToChar_ne_minus (d : Nat) : digitToChar d ≠ '-' := by
  unfold digitToChar
  split <;> decide

theorem digitsVal_natDigitsLE (n : Nat) : digitsVal (natDigitsLE n) = n := by
  induction n using Nat.strong_induction_on with
  | _ n ih =>
    rcases n with _ | m
    · rw [natDigitsLE_zero]; rfl
    · rw [natDigitsLE_succ, digitsVal,
        ih ((m+1) / 10) (Nat.div_lt_self (Nat.succ_pos m) (by decide))]
      omega

theorem natDigitsLE_lt_ten (n : Nat) : ∀ d ∈ natDigitsLE n, d < 10 := by
  induction n using Nat.strong_induction_on with
  | _ n ih =>
    rcases n with _ | m
    · rw [natDigitsLE_zero]; intro d hd; cases hd
    · rw [natDigitsLE_succ]
      intro d hd
      rcases List.mem_cons.mp hd with h | h
      · omega
      · exact ih ((m+1) / 10) (Nat.div_lt_self (Nat.succ_pos m) (by decide)) d h

theorem natDigitsLE_ne_nil {n : Nat} (h : n ≠ 0) : natDigitsLE n ≠ [] := by
  intro hnil
  have hv := digitsVal_natDigitsLE n
  rw [hnil] at hv
  exact h hv.symm

theorem parseDigitsAux_map (l : List Nat) (h : ∀ d ∈ l, d < 10) :
    ∀ a : Nat, parseDigitsAux a (l.map digitToChar) =
      some (l.foldl (fun x d => x * 10 + d) a) := by
  induction l with
  | nil => intro a; rfl
  | cons d ds ihl =>
    intro a
    have hd : d < 10 := h d (List.mem_cons_self d ds)
    simp only [List.map_cons, parseDigitsAux,
      charToDigit_digitToChar hd, Option.bind_some]
    exact ihl (fun e he => h e (List.mem_cons_of_mem d he)) (a * 10 + d)

theorem foldl_reverse_digits (l : List Nat) :
    ∀ a : Nat, l.reverse.foldl (fun x d => x * 10 + d) a =
      a * 10 ^ l.length + digitsVal l := by
  induction l with
  | nil => intro a; simp [digitsVal]
  | cons d ds ihl =>
    intro a
    rw [List.reverse_cons, List.foldl_append, ihl a]
    simp only [List.foldl_cons, List.foldl_nil, digitsVal, List.length_cons]
    ring

theorem parseNat_of_ne_nil (cs : List Char) (h : cs ≠ []) :
    parseNat cs = parseDigitsAux 0 cs := by
  match cs with
  | [] => exact absurd rfl h
  | c :: cs => rfl

theorem natToString_toList (n : Nat) (h : n ≠ 0) :
    (natToString n).toList = (natDigitsLE n).reverse.map digitToChar := by
  unfold natToString
  rw [if_neg h]
  rfl

theorem parseNat_natToString (n : Nat) :
    parseNat (natToString n).toList = some n := by
  by_cases h0 : n = 0
  · subst h0; decide
  · rw [natToString_toList n h0]
    have hne : (natDigitsLE n).reverse.map digitToChar ≠ [] := by
      simp [natDigitsLE_ne_nil h0]
    have hlt : ∀ d ∈ (natDigitsLE n).reverse, d < 10 := by
      intro d hd
      exact natDigitsLE_lt_ten n d (List.mem_reverse.mp hd)
    rw [parseNat_of_ne_nil _ hne, parseDigitsAux_map _ hlt 0,
      foldl_reverse_digits, digitsVal_natDigitsLE]
    simp

theorem natToString_head_digit (n : Nat) :
    ∃ d : Nat, ∃ cs : List Char,
      (natToString n).toList = digitToChar d :: cs := by
  by_cases h0 : n = 0
  · exact ⟨0, [], by subst h0; rfl⟩
  · rw [natToString_toList n h0]
    have hne : (natDigitsLE n).reverse ≠ [] := by
      simp [natDigitsLE_ne_nil h0]
    match hr : (natDigitsLE n).reverse with
    | [] => exact absurd hr hne
    | d :: ds => exact ⟨d, ds.map digitToChar, rfl⟩

/-- Python round trip `int(str(n)) == n` for every integer `n`. -/
theorem pyInt_intToStr (n : Int) : pyInt (intToStr n) = some n := by
  by_cases hneg : n < 0
  · unfold intToStr
    rw [if_pos hneg]
    unfold pyInt
    have happ : ("-" ++ natToString n.natAbs).toList =
        '-' :: (natToString n.natAbs).toList := rfl
    rw [happ, pyIntChars, if_pos rfl, parseNat_natToString]
    show some (-(n.natAbs : Int)) = some n
    congr 1
    omega
  · unfold intToStr
    rw [if_neg hneg]
    unfold pyInt
    obtain ⟨d, cs, hd⟩ := natToString_head_digit n.toNat
    rw [hd, pyIntChars, if_neg (digitToChar_ne_minus d), ← hd,
      parseNat_natToString]
    show some ((n.toNat : Int)) = some n
    congr 1
    omega

/-! ### Model of the Python values flowing through the codec

`Py` covers the Python values reachable in `utils.py` and `dbapi.py`:
`None`, booleans, integers, strings and (insertion-ordered) dictionaries
with string keys. -/

inductive Py where
  | none
  | bool (b : Bool)
  | int (n : Int)
  | str (s : String)
  | dict (entries : List (String × Py))

/-- `v is None` test used by the comprehension filters in `utils.py`. -/
def Py.isNone : Py → Bool
  | .none => true
  | _ => false

/-- The values covered by C1's round-trip claim: integers and strings. -/
def Py.isIntOrStr : Py → Bool
  | .int _ => true
  | .str _ => true
  | _ => false

/-- Model of Python `repr`.  For dictionaries, the quote-escaping Python
performs inside nested string reprs is not modelled (no claim depends on
the repr of a dictionary). -/
def pyRepr : Py → String
  | .none => "None"
  | .bool b => cond b "True" "False"
  | .int n => intToStr n
  | .str s => "'" ++ s ++ "'"
  | .dict xs => "\x7b" ++ String.intercalate ", "
      (xs.attach.map (fun p => "'" ++ p.1.1 ++ "': " ++ pyRepr p.1.2)) ++ "\x7d"
decreasing_by
  obtain ⟨⟨k, v⟩, hm⟩ := p
  have h1 := List.sizeOf_lt_of_mem hm
  simp only [Prod.mk.sizeOf_spec, Py.dict.sizeOf_spec] at *
  omega

/-- Model of Python `str(v)`: the identity on strings, `repr` otherwise
(`str` and `repr` agree on `None`, booleans, integers and dicts). -/
def pyStr : Py → String
  | .str s => s
  | .none => "None"
  | .bool b => cond b "True" "False"
  | .int n => intToStr n
  | .dict xs => pyRepr (.dict xs)

/-- The Python exceptions raised by the embedded code.  Messages keep only
the static text of the source's f-strings (the interpolated values are not
rendered). -/
inductive PyErr where
  | valueError (msg : String)
  | typeError (msg : String)
  | keyError (msg : String)
  | assertionError (msg : String)
deriving DecidableEq

/-- Sequential effectful map, the model of a Python comprehension or loop
whose body may raise. -/
def mapME {ε α β : Type} (f : α → Except ε β) : List α → Except ε (List β)
  | [] => .ok []
  | a :: as =>
    match f a with
    | .error e => .error e
    | .ok b =>
      match mapME f as with
      | .error e => .error e
      | .ok bs => .ok (b :: bs)

/-! ### `src/sqla/dynamodb/utils.py` -/

/-- Model of `utils._load`: reads the first entry of the tagged attribute
map; `("N", int-or-bool-or-str payload)` converts to an integer (a Python
bool is an instance of `int`), `("S", payload)` converts the payload with
`str`, anything else raises `ValueError`.  An empty dict also raises. -/
def loadValue : Py → Except PyErr Py
  | .dict ((k, v) :: _) =>
    if k = "N" then
      match v with
      | .int n => .ok (.int n)
      | .bool b => .ok (.int (cond b 1 0))
      | .str s =>
        match pyInt s with
        | some m => .ok (.int m)
        | Option.none => .error (.valueError "invalid literal for int")
      | _ => .error (.valueError "Invalid data type")
    else if k = "S" then .ok (.str (pyStr v))
    else .error (.valueError "Invalid data type")
  | .dict [] => .error (.valueError "Invalid data type")
  | _ => .error (.typeError "object is not iterable")

/-- The dict comprehension `{k: _load(v) for k, v in data.items() if v is
not None}` of `utils.load`. -/
def loadEntries : List (String × Py) → Except PyErr (List (String × Py))
  | [] => .ok []
  | (k, v) :: rest =>
    if v.isNone then loadEntries rest
    else
      match loadValue v with
      | .error e => .error e
      | .ok w =>
        match loadEntries rest with
        | .error e => .error e
        | .ok ws => .ok ((k, w) :: ws)

/-- Model of `utils.load`: entry-wise `_load`, skipping entries whose
value is `None`. -/
def load (data : List (String × Py)) : Except PyErr (List (String × Py)) :=
  loadEntries data

mutual

/-- Model of `utils._dump`: integers (including booleans, which satisfy
`isinstance(data, int)`) become `{"N": str(data)}`, strings become
`{"S": data}`, dicts are dumped entry-wise skipping `None` values, and
anything else raises `ValueError`. -/
def dumpValue : Py → Except PyErr Py
  | .bool b => .ok (.dict [("N", .str (cond b "True" "False"))])
  | .int n => .ok (.dict [("N", .str (intToStr n))])
  | .str s => .ok (.dict [("S", .str s)])
  | .dict xs => (dumpEntries xs).map Py.dict
  | .none => .error (.valueError "Invalid data type")

/-- The dict comprehension `{k: _dump(v) for k, v in data.items() if v is
not None}` shared by `utils._dump` and `utils.dump`. -/
def dumpEntries : List (String × Py) → Except PyErr (List (String × Py))
  | [] => .ok []
  | (k, v) :: rest =>
    if v.isNone then dumpEntries rest
    else
      match dumpValue v with
      | .error e => .error e
      | .ok w =>
        match dumpEntries rest with
        | .error e => .error e
        | .ok ws => .ok ((k, w) :: ws)

end

/-- Model of `utils.dump`. -/
def dump (data : List (String × Py)) : Except PyErr (List (String × Py)) :=
  dumpEntries data

/-- Per-value round trip: dumping an integer or string value yields a
tagged map that `_load` maps back to the original value. -/
theorem loadValue_dumpValue (v : Py) (h : v.isIntOrStr = true) :
    ∃ w, dumpValue v = .ok w ∧ w.isNone = false ∧ loadValue w = .ok v := by
  match v with
  | .int n =>
    refine ⟨.dict [("N", .str (intToStr n))], rfl, rfl, ?_⟩
    simp [loadValue, pyInt_intToStr n]
  | .str s =>
    exact ⟨.dict [("S", .str s)], rfl, rfl, rfl⟩

theorem dumpEntries_cons (k : String) (v : Py) (rest : List (String × Py)) :
    dumpEntries ((k, v) :: rest) =
      if v.isNone then dumpEntries rest
      else
        match dumpValue v with
        | .error e => .error e
        | .ok w =>
          match dumpEntries rest with
          | .error e => .error e
          | .ok ws => .ok ((k, w) :: ws) := by
  rw [dumpEntries]

theorem loadEntries_dumpEntries (xs : List (String × Py))
    (h : xs.all (fun p => p.2.isIntOrStr) = true) :
    ∃ ys, dumpEntries xs = .ok ys ∧ loadEntries ys = .ok xs := by
  induction xs with
  | nil => exact ⟨[], rfl, rfl⟩
  | cons p rest ih =>
    obtain ⟨k, v⟩ := p
    rw [List.all_cons, Bool.and_eq_true] at h
    obtain ⟨hv, hrest⟩ := h
    obtain ⟨ys, hde, hle⟩ := ih hrest
    obtain ⟨w, hw, hwn, hlw⟩ := loadValue_dumpValue v hv
    have hvn : v.isNone = false := by
      cases v <;> simp_all [Py.isIntOrStr, Py.isNone]
    refine ⟨(k, w) :: ys, ?_, ?_⟩
    · rw [dumpEntries_cons, if_neg (by rw [hvn]; exact Bool.false_ne_true), hw,
        hde]
    · rw [loadEntries, if_neg (by rw [hwn]; exact Bool.false_ne_true), hlw, hle]

/-- C1: for every finite mapping whose values are integers or strings (the
values representable by `dump`), `load` applied to the result of `dump`
returns the original mapping; in particular this covers the all-integer
and all-string mappings, so `load(dump(n)) = n` for integer values and
`load(dump(s)) = s` for string values. -/
theorem claim_C1_codec_roundtrip (xs : List (String × Py))
    (h : xs.all (fun p => p.2.isIntOrStr) = true) :
    ∃ ys, dump xs = .ok ys ∧ load ys = .ok xs :=
  loadEntries_dumpEntries xs h

theorem claim_C1_codec_roundtrip_witness :
    ([(("a" : String), Py.str "b"), ("c", Py.int 1), ("d", Py.int (-57))].all
        (fun p => p.2.isIntOrStr) = true) ∧
    ∃ ys, dump [("a", Py.str "b"), ("c", Py.int 1), ("d", Py.int (-57))] = .ok ys ∧
      load ys = .ok [("a", Py.str "b"), ("c", Py.int 1), ("d", Py.int (-57))] :=
  ⟨rfl, claim_C1_codec_roundtrip _ rfl⟩

/-- C3 fails on the code: `_load` only understands the tags `N` and `S`;
a `BOOL`-tagged attribute value makes `load` raise `ValueError` instead of
producing a boolean (or any escape mapping). -/
theorem claim_C3_counterexample :
    load [("a", Py.dict [("BOOL", Py.bool true)])] =
      .error (.valueError "Invalid data type") ∧
    ∀ ys, load [("a", Py.dict [("BOOL", Py.bool true)])] ≠ .ok ys := by
  refine ⟨rfl, ?_⟩
  intro ys hcontra
  have h : (Except.error (PyErr.valueError "Invalid data type") :
      Except PyErr (List (String × Py))) = .ok ys := hcontra
  exact Except.noConfusion h

/-- C3 amended: the read path of the codec handles only the tags `S` and
`N`.  For a single-tag attribute value, tag `S` maps the payload through
`str`, tag `N` maps an integer payload to itself, a boolean payload to
0/1, and a string payload through integer parsing (`ValueError` when not
integer-shaped); every other tag — including `BOOL`, `NULL`, `L` and `M`
— raises `ValueError` rather than being decoded or retained, and an empty
attribute map also raises. -/
theorem claim_C3_load_tags (k : String) (v : Py) (rest : List (String × Py)) :
    (k = "S" → loadValue (.dict ((k, v) :: rest)) = .ok (.str (pyStr v))) ∧
    (∀ n : Int, loadValue (.dict (("N", Py.int n) :: rest)) = .ok (.int n)) ∧
    (∀ b : Bool, loadValue (.dict (("N", Py.bool b) :: rest)) =
      .ok (.int (cond b 1 0))) ∧
    (∀ s : String, loadValue (.dict (("N", Py.str s) :: rest)) =
      (match pyInt s with
       | some m => .ok (.int m)
       | Option.none => .error (.valueError "invalid literal for int"))) ∧
    (k ≠ "S" → k ≠ "N" →
      loadValue (.dict ((k, v) :: rest)) =
        .error (.valueError "Invalid data type")) ∧
    loadValue (.dict []) = .error (.valueError "Invalid data type") := by
  refine ⟨?_, ?_, ?_, ?_, ?_, rfl⟩
  · intro hk
    subst hk
    rfl
  · intro n
    rfl
  · intro b
    rfl
  · intro s
    rfl
  · intro hkS hkN
    cases v <;> simp [loadValue, hkN, hkS]

theorem claim_C3_load_tags_witness :
    (("BOOL" : String) ≠ "S" ∧ ("BOOL" : String) ≠ "N" ∧
      loadValue (.dict [("BOOL", Py.bool true)]) =
        .error (.valueError "Invalid data type")) ∧
    (("S" : String) = "S" ∧
      loadValue (.dict [("S", Py.str "x")]) = .ok (.str "x")) :=
  ⟨⟨by decide, by decide,
    (claim_C3_load_tags "BOOL" (.bool true) []).2.2.2.2.1 (by decide) (by decide)⟩,
   ⟨rfl, (claim_C3_load_tags "S" (.str "x") []).1 rfl⟩⟩

/-! ### `src/sqla/dynamodb/dialect.py` — DDL compilation -/

/-- The SQLAlchemy column types appearing in `TYPES_SA_TO_DYNAMODB`
(plus `Boolean`, whose entry is commented out in the source). -/
inductive SAType where
  | Integer | BigInteger | SmallInteger | Numeric | Float
  | StringT | Text | EnumT | UUID | DateTime | Boolean
deriving DecidableEq

/-- The module-level `TYPES_SA_TO_DYNAMODB` dictionary; `none` models the
`KeyError` an absent entry raises (e.g. for `Boolean`). -/
def TYPES_SA_TO_DYNAMODB : SAType → Option String
  | .Integer | .BigInteger | .SmallInteger | .Numeric | .Float => some "N"
  | .StringT | .Text | .EnumT | .UUID | .DateTime => some "S"
  | .Boolean => Option.none

/-- A SQLAlchemy column as consumed by `visit_create_table`. -/
structure SAColumn where
  name : String
  type : SAType
  primary_key : Bool
deriving DecidableEq

/-- A SQLAlchemy table descriptor: name plus ordered columns. -/
structure SATable where
  name : String
  columns : List SAColumn
deriving DecidableEq

structure KeySchemaElem where
  AttributeName : String
  KeyType : String
deriving DecidableEq

structure AttrDef where
  AttributeName : String
  AttributeType : String
deriving DecidableEq

/-- The structured content of the JSON object `visit_create_table` emits
(`json.dumps(data)`); `ProvisionedThroughput` is the
(ReadCapacityUnits, WriteCapacityUnits) pair. -/
structure CreateTableData where
  TableName : String
  KeySchema : List KeySchemaElem
  AttributeDefinitions : List AttrDef
  ProvisionedThroughput : Int × Int
deriving DecidableEq

/-- Model of `DynamoDDLCompiler.visit_create_table`: filters the
primary-key columns, asserts there are between 1 and 2 of them, then
emits the HASH (and RANGE) key schema in declaration order together with
the store-mapped attribute definitions. -/
def visit_create_table (t : SATable) : Except PyErr CreateTableData :=
  let pk_columns := t.columns.filter (fun c => c.primary_key)
  if pk_columns.length = 0 then
    .error (.assertionError "DynamoDB requires at least one primary key")
  else if 3 ≤ pk_columns.length then
    .error (.assertionError "DynamoDB only supports up to 2 primary keys")
  else
    match pk_columns with
    | [hk] =>
      match TYPES_SA_TO_DYNAMODB hk.type with
      | Option.none => .error (.keyError "TYPES_SA_TO_DYNAMODB")
      | some hkt =>
        .ok { TableName := t.name
              KeySchema := [⟨hk.name, "HASH"⟩]
              AttributeDefinitions := [⟨hk.name, hkt⟩]
              ProvisionedThroughput := (1, 1) }
    | [hk, rk] =>
      match TYPES_SA_TO_DYNAMODB hk.type, TYPES_SA_TO_DYNAMODB rk.type with
      | some hkt, some rkt =>
        .ok { TableName := t.name
              KeySchema := [⟨hk.name, "HASH"⟩, ⟨rk.name, "RANGE"⟩]
              AttributeDefinitions := [⟨hk.name, hkt⟩, ⟨rk.name, rkt⟩]
              ProvisionedThroughput := (1, 1) }
      | _, _ => .error (.keyError "TYPES_SA_TO_DYNAMODB")
    | _ =>
      .ok { TableName := t.name
            KeySchema := []
            AttributeDefinitions := []
            ProvisionedThroughput := (1, 1) }

/-- C4: with exactly one primary-key column the compiled `KeySchema` is
the single HASH entry for that column (and its store-mapped type is the
single attribute definition); with exactly two primary-key columns
declared in order (a, b) the `KeySchema` is `[(a, HASH), (b, RANGE)]`,
declaration order preserved. -/
theorem claim_C4_create_key_schema (t : SATable) (a b : SAColumn)
    (ta tb : String) :
    (t.columns.filter (fun c => c.primary_key) = [a] →
      TYPES_SA_TO_DYNAMODB a.type = some ta →
      visit_create_table t =
        .ok ⟨t.name, [⟨a.name, "HASH"⟩], [⟨a.name, ta⟩], (1, 1)⟩) ∧
    (t.columns.filter (fun c => c.primary_key) = [a, b] →
      TYPES_SA_TO_DYNAMODB a.type = some ta →
      TYPES_SA_TO_DYNAMODB b.type = some tb →
      visit_create_table t =
        .ok ⟨t.name, [⟨a.name, "HASH"⟩, ⟨b.name, "RANGE"⟩],
          [⟨a.name, ta⟩, ⟨b.name, tb⟩], (1, 1)⟩) := by
  constructor
  · intro hpk hta
    simp [visit_create_table, hpk, hta]
  · intro hpk hta htb
    simp [visit_create_table, hpk, hta, htb]

theorem claim_C4_create_key_schema_witness :
    ((SATable.mk "t1" [⟨"id", .StringT, true⟩, ⟨"x", .Integer, false⟩]).columns.filter
        (fun c => c.primary_key) = [⟨"id", .StringT, true⟩] ∧
      visit_create_table ⟨"t1", [⟨"id", .StringT, true⟩, ⟨"x", .Integer, false⟩]⟩ =
        .ok ⟨"t1", [⟨"id", "HASH"⟩], [⟨"id", "S"⟩], (1, 1)⟩) ∧
    ((SATable.mk "t2" [⟨"id", .StringT, true⟩, ⟨"ts", .Integer, true⟩]).columns.filter
        (fun c => c.primary_key) = [⟨"id", .StringT, true⟩, ⟨"ts", .Integer, true⟩] ∧
      visit_create_table ⟨"t2", [⟨"id", .StringT, true⟩, ⟨"ts", .Integer, true⟩]⟩ =
        .ok ⟨"t2", [⟨"id", "HASH"⟩, ⟨"ts", "RANGE"⟩],
          [⟨"id", "S"⟩, ⟨"ts", "N"⟩], (1, 1)⟩) :=
  ⟨⟨by decide,
    (claim_C4_create_key_schema ⟨"t1", [⟨"id", .StringT, true⟩, ⟨"x", .Integer, false⟩]⟩
      ⟨"id", .StringT, true⟩ ⟨"id", .StringT, true⟩ "S" "S").1 (by decide) rfl⟩,
   ⟨by decide,
    (claim_C4_create_key_schema ⟨"t2", [⟨"id", .StringT, true⟩, ⟨"ts", .Integer, true⟩]⟩
      ⟨"id", .StringT, true⟩ ⟨"ts", .Integer, true⟩ "S" "N").2 (by decide) rfl rfl⟩⟩

/-- C5: a table descriptor with zero primary-key columns, or with more
than two, makes CREATE TABLE compilation fail (the source's assertion
errors, the spec's `SchemaError`), and no request is produced. -/
theorem claim_C5_pk_cardinality (t : SATable) :
    ((t.columns.filter (fun c => c.primary_key)).length = 0 →
      visit_create_table t =
        .error (.assertionError "DynamoDB requires at least one primary key")) ∧
    (2 < (t.columns.filter (fun c => c.primary_key)).length →
      visit_create_table t =
        .error (.assertionError "DynamoDB only supports up to 2 primary keys")) := by
  constructor
  · intro h
    simp [visit_create_table, h]
  · intro h
    have h0 : ¬ (t.columns.filter (fun c => c.primary_key)).length = 0 := by omega
    have h3 : 3 ≤ (t.columns.filter (fun c => c.primary_key)).length := by omega
    simp [visit_create_table, h0, h3]

theorem claim_C5_pk_cardinality_witness :
    (((SATable.mk "t0" [⟨"x", .StringT, false⟩]).columns.filter
        (fun c => c.primary_key)).length = 0 ∧
      visit_create_table ⟨"t0", [⟨"x", .StringT, false⟩]⟩ =
        .error (.assertionError "DynamoDB requires at least one primary key")) ∧
    (2 < ((SATable.mk "t3" [⟨"a", .StringT, true⟩, ⟨"b", .StringT, true⟩,
        ⟨"c", .StringT, true⟩]).columns.filter (fun c => c.primary_key)).length ∧
      visit_create_table ⟨"t3", [⟨"a", .StringT, true⟩, ⟨"b", .StringT, true⟩,
        ⟨"c", .StringT, true⟩]⟩ =
        .error (.assertionError "DynamoDB only supports up to 2 primary keys")) :=
  ⟨⟨by decide,
    (claim_C5_pk_cardinality ⟨"t0", [⟨"x", .StringT, false⟩]⟩).1 (by decide)⟩,
   ⟨by decide,
    (claim_C5_pk_cardinality ⟨"t3", [⟨"a", .StringT, true⟩, ⟨"b", .StringT, true⟩,
      ⟨"c", .StringT, true⟩]⟩).2 (by decide)⟩⟩

/-! ### `src/sqla/dynamodb/dbapi.py` — statements, dispatch and the cursor

`Cursor.execute` receives a JSON string and probes it with three pydantic
adapters.  The JSON text is modelled as an already-parsed JSON value
(`validate_json` = parse + validate; a non-JSON string fails all three
adapters and is covered by the failing constructors). -/

inductive JVal where
  | str (s : String)
  | num (n : Int)
  | bool (b : Bool)
  | null
  | arr (xs : List JVal)
  | obj (entries : List (String × JVal))

/-- Python `dict` lookup (`d.get(key)` / `d[key]`), `none` when absent. -/
def dictGet {α : Type} : List (String × α) → String → Option α
  | [], _ => Option.none
  | (k, v) :: rest, key => if k = key then some v else dictGet rest key

/-- Sequential fallible map (a Python loop over a list that may fail). -/
def mapMO {α β : Type} (f : α → Option β) : List α → Option (List β)
  | [] => some []
  | a :: as =>
    match f a with
    | Option.none => Option.none
    | some b =>
      match mapMO f as with
      | Option.none => Option.none
      | some bs => some (b :: bs)

/-- Validation against `_ExecuteParams` (a TypedDict requiring a string
`Statement`; pydantic ignores extra keys).  Returns the statement text. -/
def matchExecute : JVal → Option String
  | .obj xs =>
    match dictGet xs "Statement" with
    | some (.str s) => some s
    | _ => Option.none
  | _ => Option.none

/-- Validation of one `KeySchemaElementTypeDef`: required string
`AttributeName` and literal `KeyType` of `HASH` or `RANGE`. -/
def parseKeySchemaElem : JVal → Option KeySchemaElem
  | .obj xs =>
    match dictGet xs "AttributeName", dictGet xs "KeyType" with
    | some (.str n), some (.str kt) =>
      if kt = "HASH" ∨ kt = "RANGE" then some ⟨n, kt⟩ else Option.none
    | _, _ => Option.none
  | _ => Option.none

/-- Validation of one `AttributeDefinitionTypeDef`: required string
`AttributeName` and scalar `AttributeType` of `S`, `N` or `B`. -/
def parseAttrDef : JVal → Option AttrDef
  | .obj xs =>
    match dictGet xs "AttributeName", dictGet xs "AttributeType" with
    | some (.str n), some (.str ty) =>
      if ty = "S" ∨ ty = "N" ∨ ty = "B" then some ⟨n, ty⟩ else Option.none
    | _, _ => Option.none
  | _ => Option.none

/-- Validation of `ProvisionedThroughputTypeDef`: required integer
`ReadCapacityUnits` and `WriteCapacityUnits`. -/
def parseThroughput : JVal → Option (Int × Int)
  | .obj xs =>
    match dictGet xs "ReadCapacityUnits", dictGet xs "WriteCapacityUnits" with
    | some (.num r), some (.num w) => some (r, w)
    | _, _ => Option.none
  | _ => Option.none

/-- The validated content of a `CreateTableInputTypeDef`: the three
required fields plus the optional `ProvisionedThroughput` (the other
optional fields are not produced by this compiler and are ignored). -/
structure CreateIn where
  TableName : String
  KeySchema : List KeySchemaElem
  AttributeDefinitions : List AttrDef
  ProvisionedThroughput : Option (Int × Int)
deriving DecidableEq

/-- Validation against `CreateTableInputTypeDef` (`_CreateAdapter`). -/
def matchCreate : JVal → Option CreateIn
  | .obj xs =>
    match dictGet xs "TableName", dictGet xs "KeySchema",
        dictGet xs "AttributeDefinitions" with
    | some (.str tn), some (.arr ks), some (.arr ads) =>
      match mapMO parseKeySchemaElem ks, mapMO parseAttrDef ads with
      | some ks2, some ads2 =>
        match dictGet xs "ProvisionedThroughput" with
        | Option.none => some ⟨tn, ks2, ads2, Option.none⟩
        | some pt =>
          match parseThroughput pt with
          | some p => some ⟨tn, ks2, ads2, some p⟩
          | Option.none => Option.none
      | _, _ => Option.none
    | _, _, _ => Option.none
  | _ => Option.none

/-- Validation against `DeleteTableInputTypeDef` (`_DropAdapter`):
required string `TableName`, extra keys ignored. -/
def matchDrop : JVal → Option String
  | .obj xs =>
    match dictGet xs "TableName" with
    | some (.str tn) => some tn
    | _ => Option.none
  | _ => Option.none

/-- The values of the module-level `TYPES_DYNAMODB_TO_PY` dict: the
Python classes `str` and `int`. -/
inductive PyType where
  | str
  | int
deriving DecidableEq

/-- `TYPES_DYNAMODB_TO_PY`; `none` models the `KeyError` raised on any
other attribute tag. -/
def TYPES_DYNAMODB_TO_PY : String → Option PyType
  | "S" => some .str
  | "N" => some .int
  | _ => Option.none

/-- The `Description` named tuple of dbapi.py. -/
structure Description where
  name : String
  type_code : PyType
  display_size : Option Int
  internal_size : Option Int
  precision : Option Int
  scale : Option Int
  null_ok : Bool
deriving DecidableEq

/-- `Description.from_dynamodb` (with its `null_ok=False` default); the
dict lookup `TYPES_DYNAMODB_TO_PY[typ]` raises `KeyError` on unknown
tags. -/
def Description.from_dynamodb (name typ : String) : Except PyErr Description :=
  match TYPES_DYNAMODB_TO_PY typ with
  | some tc =>
    .ok ⟨name, tc, Option.none, Option.none, Option.none, Option.none, false⟩
  | Option.none => .error (.keyError "TYPES_DYNAMODB_TO_PY")

/-- A result row: one decoded value per sorted field name, `none` filling
the positions a given item lacks (`loaded.get(n, None)`). -/
abbrev Row := List (Option Py)

/-- An item of a query response: field name to tagged attribute value. -/
abbrev Item := List (String × Py)

/-- Python iteration over the keys of an attribute value (`for dtype in
value`): a dict yields its keys, a string its characters, anything else
raises `TypeError`. -/
def pyIterKeys : Py → Except PyErr (List String)
  | .dict xs => .ok (xs.map (fun p => p.1))
  | .str s => .ok (s.toList.map Char.toString)
  | _ => .error (.typeError "object is not iterable")

/-- Python dict assignment `m[k] = v`: updates in place or appends. -/
def dictSet (m : List (String × String)) (k v : String) :
    List (String × String) :=
  match m with
  | [] => [(k, v)]
  | (k2, v2) :: rest =>
    if k2 = k then (k, v) :: rest else (k2, v2) :: dictSet rest k v

/-- Insert into an ascending list (`sorted` on unique keys). -/
def insertSorted (s : String) : List String → List String
  | [] => [s]
  | t :: ts => if t < s then t :: insertSorted s ts else s :: t :: ts

/-- Python `sorted` on a list of (unique) strings. -/
def sortStrings (l : List String) : List String := l.foldr insertSorted []

/-- The field-collection loop of `_process_response` over one item:
`fields[fname] = dtype` for every tag of every value (last one wins). -/
def fieldsOfItem (acc : List (String × String)) :
    Item → Except PyErr (List (String × String))
  | [] => .ok acc
  | (fname, value) :: rest =>
    match pyIterKeys value with
    | .error e => .error e
    | .ok tags => fieldsOfItem (tags.foldl (fun m t => dictSet m fname t) acc) rest

/-- The field-collection loop of `_process_response` over all items. -/
def fieldsOfItems (acc : List (String × String)) :
    List Item → Except PyErr (List (String × String))
  | [] => .ok acc
  | item :: items =>
    match fieldsOfItem acc item with
    | .error e => .error e
    | .ok acc2 => fieldsOfItems acc2 items

/-- The response dict of `client.execute_statement`; only the `Items` key
is read (`response.get("Items", [])`, hence the `Option`). -/
structure DBResponse where
  Items : Option (List Item)

/-- The row-building loop of `_process_response`: each item is decoded
with `utils.load` and laid out in sorted-name order, `None` filling the
names the item lacks. -/
def rowsOfItems (names : List String) (items : List Item) :
    Except PyErr (List Row) :=
  mapME (fun item =>
    match load item with
    | .error e => .error e
    | .ok loaded => .ok (names.map (fun n => dictGet loaded n))) items

/-- The description-building comprehension of `_process_response`:
`Description.from_dynamodb(n, fields[n])` per sorted name. -/
def descOfFields (fields : List (String × String)) (names : List String) :
    Except PyErr (List Description) :=
  mapME (fun n =>
    match dictGet fields n with
    | some t => Description.from_dynamodb n t
    | Option.none => .error (.keyError "fields")) names

/-- Model of `_process_response`: collects the field-name → tag map
(last tag wins), sorts the names, builds each row in sorted-name order
(missing attributes filled with `None`), then builds the description in
the same order. -/
def processResponse (response : DBResponse) :
    Except PyErr (List Row × List Description) :=
  match fieldsOfItems [] (response.Items.getD []) with
  | .error e => .error e
  | .ok fields =>
    match rowsOfItems (sortStrings (fields.map (fun p => p.1)))
        (response.Items.getD []) with
    | .error e => .error e
    | .ok results =>
      match descOfFields fields (sortStrings (fields.map (fun p => p.1))) with
      | .error e => .error e
      | .ok description => .ok (results, description)

/-- The mutable state of a dbapi `Cursor` (the owning connection and the
store client are abstracted away; the client call an `execute` performs
is reported as an `Effect`). -/
structure Cursor where
  rowcount : Int
  description : Option (List Description)
  results : Option (List Row)
  index : Nat
  closed : Bool

/-- A freshly created cursor: `rowcount = 0` (the dataclass field
default), no description, no results, position 0, not closed. -/
def initCursor : Cursor :=
  ⟨0, Option.none, Option.none, 0, false⟩

/-- Model of `Cursor._update_cursor`. -/
def Cursor.updateCursor (c : Cursor) (response : DBResponse) :
    Except PyErr Cursor :=
  match processResponse response with
  | .error e => .error e
  | .ok (results, description) =>
    .ok { c with
          description := some description
          results := some results
          index := 0
          rowcount := (results.length : Int) }

/-- Model of `Cursor.fetchone`: `None` when no results are buffered or
the position is exhausted, otherwise the row at the position, advancing
by one. -/
def Cursor.fetchone (c : Cursor) : Cursor × Option Row :=
  match c.results with
  | Option.none => (c, Option.none)
  | some rs =>
    if rs.length ≤ c.index then (c, Option.none)
    else ({ c with index := c.index + 1 }, rs.get? c.index)

/-- Model of `Cursor.fetchall`: `None` when no results are buffered, `[]`
when exhausted, otherwise the remaining rows, advancing by their count. -/
def Cursor.fetchall (c : Cursor) : Cursor × Option (List Row) :=
  match c.results with
  | Option.none => (c, Option.none)
  | some rs =>
    if rs.length ≤ c.index then (c, some [])
    else
      ({ c with index := c.index + (rs.drop c.index).length },
        some (rs.drop c.index))

/-- Model of `Cursor.close`. -/
def Cursor.close (c : Cursor) : Cursor :=
  { c with
    results := Option.none
    index := 0
    description := Option.none
    rowcount := -1
    closed := true }

/-- The local `TYPES` dict of `Cursor.execute`, keyed by the exact Python
type of the value (`type(v)`; a bool therefore maps to `BOOL`, not `N`). -/
def typeTag : Py → Option String
  | .str _ => some "S"
  | .int _ => some "N"
  | .bool _ => some "BOOL"
  | _ => Option.none

/-- One bound parameter as encoded by `Cursor.execute`:
`{TYPES[type(v)]: str(v)}` — note the value is always `str(v)`. -/
def encodeParam (v : Py) : Option (String × String) :=
  match typeTag v with
  | some key => some (key, pyStr v)
  | Option.none => Option.none

/-- The parameter-encoding loop of `Cursor.execute`; `none` models the
`KeyError` a value of unsupported type raises. -/
def encodeParams : List Py → Option (List (String × String)) :=
  mapMO encodeParam

/-- The store operation `Cursor.execute` dispatches to. -/
inductive Effect where
  | executeStatement (stmt : String)
      (parameters : Option (List (String × String)))
  | createTable (input : CreateIn)
  | deleteTable (TableName : String)
deriving DecidableEq

/-- Model of `Cursor.execute`: encodes the positional parameters first
(their `KeyError` precedes any dispatch), then probes the statement with
the execute, create and drop adapters in that order; the first match
determines the client call (returned as the `Effect`).  For the
execute-statement branch the response the client would return is passed
in as `response` and fed to `_update_cursor`; a raising
`_update_cursor` is the error outcome (the client call has happened by
then, but no local state is kept in that case).  No branch consults
`closed`. -/
def Cursor.execute (c : Cursor) (sql : JVal) (parameters : List Py)
    (response : DBResponse) : Except PyErr (Cursor × Effect) :=
  match encodeParams parameters with
  | Option.none => .error (.keyError "TYPES")
  | some params =>
    match matchExecute sql with
    | some stmt =>
      match c.updateCursor response with
      | .error e => .error e
      | .ok c2 =>
        .ok (c2, .executeStatement stmt
          (if params.isEmpty then Option.none else some params))
    | Option.none =>
      match matchCreate sql with
      | some ci => .ok (c, .createTable ci)
      | Option.none =>
        match matchDrop sql with
        | some tn => .ok (c, .deleteTable tn)
        | Option.none => .error (.valueError "Unknown statement")

/-! ### Spec-side reference definitions (for the refinement claims) -/

/-- The dispatch order the spec claims for `Cursor.execute`, following
its words: attempt a create-table match first, then a drop-table match,
then a generic query-execute match; the first structural match
determines the store operation. -/
def specDispatch (sql : JVal) : Option Effect :=
  match matchCreate sql with
  | some ci => some (.createTable ci)
  | Option.none =>
    match matchDrop sql with
    | some tn => some (.deleteTable tn)
    | Option.none =>
      match matchExecute sql with
      | some stmt => some (.executeStatement stmt Option.none)
      | Option.none => Option.none

/-- The parameter encoding the spec claims, following its words: string
value v → `(S, v)`, integer v → `(N, decimal string of v)`, boolean v →
`(BOOL, v)` — the boolean itself, not its string form. -/
def specEncodeParam : Py → Option (String × Py)
  | .str s => some ("S", .str s)
  | .int n => some ("N", .str (intToStr n))
  | .bool b => some ("BOOL", .bool b)
  | _ => Option.none

/-! ### Helper lemmas about the cursor pipeline -/

theorem mapME_length {ε α β : Type} (f : α → Except ε β) :
    ∀ (l : List α) (l2 : List β), mapME f l = .ok l2 → l2.length = l.length := by
  intro l
  induction l with
  | nil =>
    intro l2 h
    unfold mapME at h
    cases h
    rfl
  | cons a as ih =>
    intro l2 h
    unfold mapME at h
    cases hfa : f a with
    | error e =>
      rw [hfa] at h
      exact Except.noConfusion h
    | ok b =>
      rw [hfa] at h
      cases hm : mapME f as with
      | error e =>
        rw [hm] at h
        exact Except.noConfusion h
      | ok bs =>
        rw [hm] at h
        cases h
        simp [ih bs hm]

theorem processResponse_length (r : DBResponse) (res : List Row)
    (desc : List Description) (h : processResponse r = .ok (res, desc)) :
    res.length = (r.Items.getD []).length := by
  unfold processResponse at h
  split at h
  · exact Except.noConfusion h
  · split at h
    · exact Except.noConfusion h
    · rename_i fields hf results hr
      split at h
      · exact Except.noConfusion h
      · injection h with h2
        have hres : results = res := congrArg Prod.fst h2
        rw [← hres]
        exact mapME_length _ _ _ hr

/-- The effect of `Cursor.execute` (which store call happens, with which
arguments) does not depend on the cursor's state. -/
theorem execute_effect_ignores_cursor (c1 c2 : Cursor) (sql : JVal)
    (p : List Py) (r : DBResponse) :
    (c1.execute sql p r).map (fun x => x.2) =
      (c2.execute sql p r).map (fun x => x.2) := by
  unfold Cursor.execute
  cases hp : encodeParams p with
  | none => rfl
  | some ps =>
    cases he : matchExecute sql with
    | some stmt =>
      unfold Cursor.updateCursor
      cases hr : processResponse r with
      | error e => rfl
      | ok pr => rfl
    | none =>
      cases hc : matchCreate sql with
      | some ci => rfl
      | none =>
        cases hd : matchDrop sql with
        | some tn => rfl
        | none => rfl

/-! ### Claims C2, C6, C7, C8, C9, C10 -/

/-- C2 fails on the code: on a statement that is structurally both a
query-execute request (it has a string `Statement`) and a drop-table
request (it has a string `TableName`), the claimed create→drop→execute
priority would invoke the drop-table operation, but `Cursor.execute`
tries the execute adapter first and invokes the query-execute
operation. -/
theorem claim_C2_counterexample :
    Cursor.execute initCursor
        (.obj [("Statement", .str "SELECT 1"), ("TableName", .str "t")]) []
        ⟨Option.none⟩ =
      .ok (⟨0, some [], some [], 0, false⟩,
        .executeStatement "SELECT 1" Option.none) ∧
    specDispatch (.obj [("Statement", .str "SELECT 1"), ("TableName", .str "t")]) =
      some (.deleteTable "t") ∧
    Effect.executeStatement "SELECT 1" Option.none ≠ Effect.deleteTable "t" :=
  ⟨rfl, rfl, by decide⟩

/-- C2 amended: `Cursor.execute` attempts the generic query-execute
match first, then the create-table match, then the drop-table match, in
that priority order; the first structural match determines the store
operation, and a statement matching none of the three shapes raises
`ValueError`. -/
theorem claim_C2_dispatch_order (c : Cursor) (sql : JVal) (p : List Py)
    (ps : List (String × String)) (r : DBResponse)
    (hp : encodeParams p = some ps) :
    (∀ stmt, matchExecute sql = some stmt →
      c.execute sql p r =
        (match c.updateCursor r with
         | .error e => .error e
         | .ok c2 => .ok (c2, .executeStatement stmt
             (if ps.isEmpty then Option.none else some ps)))) ∧
    (matchExecute sql = Option.none → ∀ ci, matchCreate sql = some ci →
      c.execute sql p r = .ok (c, .createTable ci)) ∧
    (matchExecute sql = Option.none → matchCreate sql = Option.none →
      ∀ tn, matchDrop sql = some tn →
      c.execute sql p r = .ok (c, .deleteTable tn)) ∧
    (matchExecute sql = Option.none → matchCreate sql = Option.none →
      matchDrop sql = Option.none →
      c.execute sql p r = .error (.valueError "Unknown statement")) := by
  refine ⟨?_, ?_, ?_, ?_⟩
  · intro stmt he
    simp [Cursor.execute, hp, he]
  · intro he ci hc
    simp [Cursor.execute, hp, he, hc]
  · intro he hc tn hd
    simp [Cursor.execute, hp, he, hc, hd]
  · intro he hc hd
    simp [Cursor.execute, hp, he, hc, hd]

theorem claim_C2_dispatch_order_witness :
    encodeParams [] = some [] ∧
    matchExecute (.obj [("TableName", .str "T"),
      ("KeySchema", .arr [.obj [("AttributeName", .str "id"),
        ("KeyType", .str "HASH")]]),
      ("AttributeDefinitions", .arr [.obj [("AttributeName", .str "id"),
        ("AttributeType", .str "S")]])]) = Option.none ∧
    Cursor.execute initCursor (.obj [("TableName", .str "T"),
      ("KeySchema", .arr [.obj [("AttributeName", .str "id"),
        ("KeyType", .str "HASH")]]),
      ("AttributeDefinitions", .arr [.obj [("AttributeName", .str "id"),
        ("AttributeType", .str "S")]])]) [] ⟨Option.none⟩ =
      .ok (initCursor, .createTable ⟨"T", [⟨"id", "HASH"⟩], [⟨"id", "S"⟩],
        Option.none⟩) :=
  ⟨rfl, rfl,
    (claim_C2_dispatch_order initCursor (.obj [("TableName", .str "T"),
        ("KeySchema", .arr [.obj [("AttributeName", .str "id"),
          ("KeyType", .str "HASH")]]),
        ("AttributeDefinitions", .arr [.obj [("AttributeName", .str "id"),
          ("AttributeType", .str "S")]])]) [] [] ⟨Option.none⟩ rfl).2.1
      rfl ⟨"T", [⟨"id", "HASH"⟩], [⟨"id", "S"⟩], Option.none⟩ rfl⟩

/-- C6 fails on the code: a boolean bound value is encoded as
`{BOOL: str(v)}` — the string "True"/"False" — not as the boolean
itself as the claim states. -/
theorem claim_C6_counterexample :
    encodeParam (.bool true) = some ("BOOL", "True") ∧
    specEncodeParam (.bool true) = some ("BOOL", .bool true) ∧
    Py.str "True" ≠ Py.bool true :=
  ⟨rfl, rfl, fun h => Py.noConfusion h⟩

/-- C6 amended: each bound value is appended in order to the positional
parameter list as `{TYPES[type(v)]: str(v)}`: a string v as `{S: v}`, an
integer v as `{N: decimal string of v}`, and a boolean v as
`{BOOL: str(v)}` — its string form "True"/"False", not the boolean
itself. -/
theorem claim_C6_param_encoding :
    (∀ s : String, encodeParam (.str s) = some ("S", s)) ∧
    (∀ n : Int, encodeParam (.int n) = some ("N", intToStr n)) ∧
    (∀ b : Bool, encodeParam (.bool b) =
      some ("BOOL", cond b "True" "False")) ∧
    (∀ (v : Py) (vs : List Py), encodeParams (v :: vs) =
      (match encodeParam v with
       | Option.none => Option.none
       | some e =>
         match encodeParams vs with
         | Option.none => Option.none
         | some es => some (e :: es))) ∧
    encodeParams [] = some [] := by
  refine ⟨fun _ => rfl, fun _ => rfl, fun b => by cases b <;> rfl, ?_, rfl⟩
  intro v vs
  cases hv : encodeParam v with
  | none => simp only [encodeParams, mapMO, hv]
  | some e =>
    cases hvs : encodeParams vs with
    | none =>
      simp only [encodeParams] at hvs ⊢
      simp only [mapMO, hv, hvs]
    | some es =>
      simp only [encodeParams] at hvs ⊢
      simp only [mapMO, hv, hvs]

/-- C7 fails on the code: on a cursor that has never executed,
`fetchall` returns `None` (an absent value), not an empty sequence. -/
theorem claim_C7_counterexample :
    (initCursor.fetchall).2 = Option.none ∧
    (initCursor.fetchall).2 ≠ some [] :=
  ⟨rfl, fun h => Option.noConfusion h⟩

/-- C7 amended: when results are buffered, `fetchall` returns exactly
the rows from the current position to the end and advances the position
to the end, and a `fetchall` immediately following it returns an empty
sequence; when the cursor is already exhausted it returns an empty
sequence; but when no execute has ever occurred (or after `close`),
`fetchall` returns an absent value (`None`), not an empty sequence. -/
theorem claim_C7_fetchall (c : Cursor) (rs : List Row)
    (h : c.results = some rs) :
    (c.fetchall).2 = some (rs.drop c.index) ∧
    (c.fetchall).1.results = some rs ∧
    (c.fetchall).1.index = max c.index rs.length ∧
    ((c.fetchall).1.fetchall).2 = some [] ∧
    (initCursor.fetchall).2 = Option.none := by
  by_cases hle : rs.length ≤ c.index
  · have hdrop : rs.drop c.index = [] := List.drop_eq_nil_of_le hle
    refine ⟨?_, ?_, ?_, ?_, rfl⟩
    · simp [Cursor.fetchall, h, hle, hdrop]
    · simp [Cursor.fetchall, h, hle]
    · simp [Cursor.fetchall, h, hle]
      try omega
    · simp [Cursor.fetchall, h, hle]
  · have hcond : rs.length ≤ c.index + (rs.length - c.index) := by omega
    refine ⟨?_, ?_, ?_, ?_, rfl⟩
    · simp [Cursor.fetchall, h, hle]
    · simp [Cursor.fetchall, h, hle]
    · simp [Cursor.fetchall, h, hle]
      try omega
    · simp [Cursor.fetchall, h, hle, hcond]

theorem claim_C7_fetchall_witness :
    (⟨1, Option.none, some [[some (Py.int 7)]], 0, false⟩ : Cursor).results =
      some [[some (Py.int 7)]] ∧
    ((⟨1, Option.none, some [[some (Py.int 7)]], 0, false⟩ : Cursor).fetchall).2 =
      some ([[some (Py.int 7)]].drop 0) ∧
    ((⟨1, Option.none, some [[some (Py.int 7)]], 0, false⟩ : Cursor).fetchall).1.results =
      some [[some (Py.int 7)]] ∧
    ((⟨1, Option.none, some [[some (Py.int 7)]], 0, false⟩ : Cursor).fetchall).1.index =
      max 0 [[some (Py.int 7)]].length ∧
    (((⟨1, Option.none, some [[some (Py.int 7)]], 0, false⟩ : Cursor).fetchall).1.fetchall).2 =
      some [] ∧
    (initCursor.fetchall).2 = Option.none :=
  ⟨rfl,
    claim_C7_fetchall ⟨1, Option.none, some [[some (Py.int 7)]], 0, false⟩
      [[some (Py.int 7)]] rfl⟩

/-- C8 fails on the code: a newly created cursor has `rowcount = 0`
(the dataclass field default), not −1. -/
theorem claim_C8_counterexample :
    initCursor.rowcount = 0 ∧ initCursor.rowcount ≠ -1 :=
  ⟨rfl, by decide⟩

/-- C8 amended: `rowcount` is 0 on a newly created cursor (not −1);
after each successful query execute it equals the item count of the
last response; it becomes −1 only after `close`. -/
theorem claim_C8_rowcount (c c2 : Cursor) (r : DBResponse)
    (h : c.updateCursor r = .ok c2) :
    initCursor.rowcount = 0 ∧
    c2.rowcount = ((r.Items.getD []).length : Int) ∧
    (∀ c3 : Cursor, (c3.close).rowcount = -1) := by
  refine ⟨rfl, ?_, fun c3 => rfl⟩
  unfold Cursor.updateCursor at h
  cases hp : processResponse r with
  | error e =>
    rw [hp] at h
    exact Except.noConfusion h
  | ok pr =>
    obtain ⟨res, desc⟩ := pr
    rw [hp] at h
    injection h with h2
    rw [← h2]
    show ((res.length : Int)) = _
    rw [processResponse_length r res desc hp]

theorem claim_C8_rowcount_witness :
    Cursor.updateCursor initCursor
        ⟨some [[("a", Py.dict [("S", Py.str "x")])]]⟩ =
      .ok ⟨1, some [⟨"a", .str, Option.none, Option.none, Option.none,
          Option.none, false⟩], some [[some (Py.str "x")]], 0, false⟩ ∧
    initCursor.rowcount = 0 ∧
    (⟨1, some [⟨"a", .str, Option.none, Option.none, Option.none,
        Option.none, false⟩], some [[some (Py.str "x")]], 0, false⟩ :
      Cursor).rowcount =
      (((⟨some [[("a", Py.dict [("S", Py.str "x")])]]⟩ :
        DBResponse).Items.getD []).length : Int) ∧
    (∀ c3 : Cursor, (c3.close).rowcount = -1) :=
  ⟨rfl,
    claim_C8_rowcount initCursor
      ⟨1, some [⟨"a", .str, Option.none, Option.none, Option.none,
        Option.none, false⟩], some [[some (Py.str "x")]], 0, false⟩
      ⟨some [[("a", Py.dict [("S", Py.str "x")])]]⟩ rfl⟩

/-- C9 fails on the code: after `close()`, operations on the cursor do
not fail — `fetchone` returns `None` silently, and `execute` still
dispatches to the store (here a drop-table statement succeeds on a
closed cursor). -/
theorem claim_C9_counterexample :
    (initCursor.close).fetchone = (initCursor.close, Option.none) ∧
    (initCursor.close).execute (.obj [("TableName", .str "T")]) []
        ⟨Option.none⟩ =
      .ok (initCursor.close, .deleteTable "T") :=
  ⟨rfl, rfl⟩

/-- C9 amended: `close` clears the buffers and sets the closed flag, but
no operation checks that flag: `fetchone` and `fetchall` on a closed
cursor return an absent value (`None`) instead of failing, and `execute`
still performs exactly the same store operation it would perform on any
other cursor state. -/
theorem claim_C9_after_close (c : Cursor) :
    (c.close).fetchone = (c.close, Option.none) ∧
    (c.close).fetchall = (c.close, Option.none) ∧
    ((c.close).closed = true) ∧
    (∀ (sql : JVal) (p : List Py) (r : DBResponse),
      ((c.close).execute sql p r).map (fun x => x.2) =
        (initCursor.execute sql p r).map (fun x => x.2)) :=
  ⟨rfl, rfl, rfl,
    fun sql p r => execute_effect_ignores_cursor (c.close) initCursor sql p r⟩

/-- C10: when `Cursor.execute` matches a create-table or a drop-table
statement, the cursor state (description, results, rowcount, position,
closed flag) is returned exactly as it was before the call; only the
query-execute branch runs `_update_cursor`. -/
theorem claim_C10_ddl_frame (c : Cursor) (sql : JVal) (p : List Py)
    (ps : List (String × String)) (r : DBResponse)
    (hp : encodeParams p = some ps)
    (he : matchExecute sql = Option.none) :
    (∀ ci, matchCreate sql = some ci →
      c.execute sql p r = .ok (c, .createTable ci)) ∧
    (matchCreate sql = Option.none → ∀ tn, matchDrop sql = some tn →
      c.execute sql p r = .ok (c, .deleteTable tn)) := by
  constructor
  · intro ci hc
    simp [Cursor.execute, hp, he, hc]
  · intro hc tn hd
    simp [Cursor.execute, hp, he, hc, hd]

theorem claim_C10_ddl_frame_witness :
    encodeParams [] = some [] ∧
    matchExecute (.obj [("TableName", .str "T")]) = Option.none ∧
    matchCreate (.obj [("TableName", .str "T")]) = Option.none ∧
    matchDrop (.obj [("TableName", .str "T")]) = some "T" ∧
    Cursor.execute ⟨5, Option.none, some [[Option.none]], 1, false⟩
        (.obj [("TableName", .str "T")]) [] ⟨Option.none⟩ =
      .ok (⟨5, Option.none, some [[Option.none]], 1, false⟩,
        .deleteTable "T") :=
  ⟨rfl, rfl, rfl, rfl,
    (claim_C10_ddl_frame ⟨5, Option.none, some [[Option.none]], 1, false⟩
        (.obj [("TableName", .str "T")]) [] [] ⟨Option.none⟩ rfl rfl).2
      rfl "T" rfl⟩

end SqlaDynamo
